import Mathlib

/-!
Shallow embedding of the cross-chain relay engine (`ibc` package:
`Keeper.Send`, `Keeper.Receive`, `receivePacket`, `receiveReceipt`) and of
the gas-accounted key-value store of the repository, together with proofs
of the behavioural properties stated in the specification.

The relay functions are translated line by line from the source file.
Collaborators whose implementation is not among the provided sources
(`channelRuntime` / `connRuntime` accessors, `WrapResult`, the gas store
and its configuration) are modelled from the specification; each such
definition says so in its doc comment.
-/

namespace IBC

/-- Chain identifiers, as produced by `sdk.Context.ChainID()`. -/
abbrev Chain := String

/-- Module state written through the context/store by receive handlers;
modelled opaquely as a natural number. -/
abbrev HState := Nat

/-- `sdk.Context`: the relay code only consults the chain identity; the
store reachable through the context is modelled separately in `State`. -/
structure Context where
  ChainID : Chain
deriving DecidableEq

/-- Discriminator returned by `Payload.DatagramType()`.  The source
dispatches on `PacketType` and `ReceiptType` with a `default` case, so the
model keeps an explicit "any other type" constructor. -/
inductive DatagramType where
  | PacketType
  | ReceiptType
  | OtherType (n : Nat)
deriving DecidableEq

/-- `Payload`: a module payload; the relay consults only its datagram
type.  `val` stands for the opaque module data. -/
structure Payload where
  ty : DatagramType
  val : Nat
deriving DecidableEq

/-- `Payload.DatagramType()`. -/
def Payload.DatagramType (p : Payload) : IBC.DatagramType := p.ty

/-- `Header` {SrcChain, DestChain}. -/
structure Header where
  SrcChain : Chain
  DestChain : Chain
deriving DecidableEq

/-- `Header.InverseDirection()`: swap source and destination. -/
def Header.InverseDirection (h : Header) : Header :=
  { SrcChain := h.DestChain, DestChain := h.SrcChain }

/-- `Datagram` {Header, Payload}. -/
structure Datagram where
  header : Header
  payload : Payload
deriving DecidableEq

/-- `Proof`: only the sequence number is consulted (merkle verification is
an unimplemented collaborator in the source). -/
structure Proof where
  Sequence : Nat
deriving DecidableEq

/-- `MsgSend` {Payload, DestChain}. -/
structure MsgSend where
  payload : Payload
  DestChain : Chain
deriving DecidableEq

/-- `MsgReceive` {Datagram, SrcChain, Proof}. -/
structure MsgReceive where
  datagram : Datagram
  SrcChain : Chain
  proof : Proof
deriving DecidableEq

/-- `sdk.Result`, reduced to what the relay engine inspects (`IsOK()`) plus
which error constructed it.  Module handlers return `ok` or `modErr n`. -/
inductive Result where
  | ok
  | connNotEstablished
  | chainMismatch
  | invalidSequence
  | unknownDatagramType
  | modErr (n : Nat)
deriving DecidableEq

/-- `sdk.Result.IsOK()`. -/
def Result.IsOK : Result → Bool
  | .ok => true
  | _ => false

/-- Codespace carried by the keeper (opaque). -/
abbrev CodespaceType := Nat

/-- `ErrConnNotEstablished(codespace).Result()`. -/
def ErrConnNotEstablished (_cs : CodespaceType) : Result := .connNotEstablished

/-- `ErrChainMismatch(codespace).Result()`. -/
def ErrChainMismatch (_cs : CodespaceType) : Result := .chainMismatch

/-- `ErrInvalidSequence(codespace).Result()`. -/
def ErrInvalidSequence (_cs : CodespaceType) : Result := .invalidSequence

/-- `ErrUnknownDatagramType(codespace).Result()`. -/
def ErrUnknownDatagramType (_cs : CodespaceType) : Result := .unknownDatagramType

/-- Modelled from the spec: `WrapResult` (not among the provided sources)
propagates the handler's failure result to the caller; the spec says the
failure "is returned to the caller", so the wrap preserves the result. -/
def WrapResult (r : Result) : Result := r

/-- Per-channel persisted state: ingress sequence counter and egress
datagram queue (egress sequencing is implicit in queue order). -/
structure ChannelState where
  ingressSequence : Nat
  egressQueue : List Datagram
deriving DecidableEq

/-- Modelled from the spec: the store contents seen through the channel and
connection runtimes (`channelRuntime` and `connRuntime` are not among the
provided sources).  Channels are keyed by (datagram type, counterparty
chain), connections by counterparty chain; `hstate` is the module-owned
state that receive handlers read and write through the context. -/
structure State where
  channels : DatagramType → Chain → ChannelState
  conns : Chain → Bool
  hstate : HState

/-- `connRuntime(ctx, chain).connEstablished()`.  Modelled from the spec:
a per-counterparty-chain boolean flag. -/
def connEstablished (st : State) (chain : Chain) : Bool := st.conns chain

/-- `channelRuntime(...).getIngressSequence()`. -/
def getIngressSequence (st : State) (ty : DatagramType) (chain : Chain) : Nat :=
  (st.channels ty chain).ingressSequence

/-- `channelRuntime(...).setIngressSequence(n)`. -/
def setIngressSequence (st : State) (ty : DatagramType) (chain : Chain) (n : Nat) : State :=
  { st with channels := fun t c =>
      if t = ty ∧ c = chain then { st.channels t c with ingressSequence := n }
      else st.channels t c }

/-- `channelRuntime(...).pushEgressDatagram(d)`.  Modelled from the spec:
appends one datagram to the channel's egress queue and touches nothing
else. -/
def pushEgressDatagram (st : State) (ty : DatagramType) (chain : Chain) (d : Datagram) : State :=
  { st with channels := fun t c =>
      if t = ty ∧ c = chain then
        { st.channels t c with egressQueue := (st.channels t c).egressQueue ++ [d] }
      else st.channels t c }

/-- `type SendHandler func(Payload) sdk.Result`. -/
abbrev SendHandler := Payload → Result

/-- `type ReceiveHandler func(sdk.Context, Payload) (Payload, sdk.Result)`:
the handler reads the module state through the context it is given and
returns its updated module state, an optional receipt payload (`none` for
Go `nil`) and a result. -/
abbrev ReceiveHandler := Context → HState → Payload → HState × Option Payload × Result

/-- Distinguishes a normally returned value from a Go `panic`
(process-fatal abort). -/
inductive Outcome (α : Type) where
  | ret (a : α)
  | fatal (msg : String)
deriving DecidableEq

/-- The relay keeper; only the codespace is consulted by the modelled
code. -/
structure Keeper where
  codespace : CodespaceType
deriving DecidableEq

/-- `Keeper.Send`: run the send handler; on failure return its result with
no state change; on success push one datagram with header
{SrcChain: ctx.ChainID(), DestChain: msg.DestChain} onto the egress queue
of the channel (payload type, destination chain). -/
def Keeper.Send (_k : Keeper) (h : SendHandler) (ctx : Context) (st : State)
    (msg : MsgSend) : State × Result :=
  let payload := msg.payload
  let result := h payload
  if !result.IsOK then (st, result)
  else
    let data : Datagram :=
      { header := { SrcChain := ctx.ChainID, DestChain := msg.DestChain }
        payload := payload }
    (pushEgressDatagram st payload.DatagramType msg.DestChain data, result)

def receiptFailMsg : String :=
  "IBC Receipt handler should not fail"

def receiptReemitMsg : String :=
  "IBC Receipt handler cannot return new receipt"

/-- `receivePacket`: the handler runs against a copy-on-write cache of the
module state (`ctx.CacheContext()`); a returned receipt is pushed through
the outer channel runtime (never rolled back); `write()` commits the
handler's module-state writes only when its result is OK. -/
def receivePacket (h : ReceiveHandler) (ctx : Context) (st : State)
    (ty : DatagramType) (chain : Chain) (data : Datagram) :
    Outcome (State × Result) :=
  let out := h ctx st.hstate data.payload
  let hs' := out.1
  let receipt := out.2.1
  let res := out.2.2
  let st1 :=
    match receipt with
    | some rp =>
        pushEgressDatagram st ty chain
          { header := data.header.InverseDirection, payload := rp }
    | none => st
  if !res.IsOK then .ret (st1, WrapResult res)
  else .ret ({ st1 with hstate := hs' }, res)

/-- `receiveReceipt`: the handler runs on the live context; a failing
handler or a handler returning a receipt is a `panic` (fatal). -/
def receiveReceipt (h : ReceiveHandler) (ctx : Context) (st : State)
    (_ty : DatagramType) (_chain : Chain) (data : Datagram) :
    Outcome (State × Result) :=
  let out := h ctx st.hstate data.payload
  let hs' := out.1
  let receipt := out.2.1
  let res := out.2.2
  if !res.IsOK then .fatal receiptFailMsg
  else
    match receipt with
    | some _ => .fatal receiptReemitMsg
    | none => .ret ({ st with hstate := hs' }, res)

/-- `Keeper.Receive`: check connection, chain identity and sequence in
order; on success advance the ingress sequence by one, then dispatch on
the payload's datagram type. -/
def Keeper.Receive (k : Keeper) (h : ReceiveHandler) (ctx : Context) (st : State)
    (msg : MsgReceive) : Outcome (State × Result) :=
  let data := msg.datagram
  let payload := data.payload
  let ty := payload.DatagramType
  let prf := msg.proof
  let destChain := msg.datagram.header.DestChain
  if !connEstablished st msg.SrcChain then
    .ret (st, ErrConnNotEstablished k.codespace)
  else if ctx.ChainID ≠ destChain then
    .ret (st, ErrChainMismatch k.codespace)
  else
    let seq := getIngressSequence st ty msg.SrcChain
    if seq ≠ prf.Sequence then
      .ret (st, ErrInvalidSequence k.codespace)
    else
      let st1 := setIngressSequence st ty msg.SrcChain (seq + 1)
      match ty with
      | .PacketType => receivePacket h ctx st1 ty msg.SrcChain data
      | .ReceiptType => receiveReceipt h ctx st1 ty msg.SrcChain data
      | .OtherType _ => .ret (st1, ErrUnknownDatagramType k.codespace)

end IBC

namespace Gas

/-- Byte strings, as lists of byte values. -/
abbrev Bytes := List Nat

/-- Modelled from the spec: `GasMeter` {limit, consumed}; the
implementation (`store/types`) is not among the provided sources. -/
structure GasMeter where
  limit : Nat
  consumed : Nat
deriving DecidableEq

/-- Modelled from the spec: `ConsumeGas` adds the amount to `consumed`; a
charge that would push `consumed` past `limit` is an unrecoverable
out-of-gas abort, modelled as `none` (never a silently capped total). -/
def GasMeter.ConsumeGas (m : GasMeter) (amount : Nat) : Option GasMeter :=
  if m.limit < m.consumed + amount then none
  else some { m with consumed := m.consumed + amount }

/-- `GasMeter.GasConsumed()`. -/
def GasMeter.GasConsumed (m : GasMeter) : Nat := m.consumed

/-- `NewGasMeter(limit)`: fresh meter with nothing consumed. -/
def NewGasMeter (limit : Nat) : GasMeter := { limit := limit, consumed := 0 }

/-- Modelled from the spec: the recognized cost fields of a gas
configuration. -/
structure GasConfig where
  ReadCostFlat : Nat
  ReadCostPerByte : Nat
  WriteCostFlat : Nat
  WriteCostPerByte : Nat
  DeleteCost : Nat
  HasCost : Nat
  IterCreateCost : Nat
  IterStepCostFlat : Nat
  IterStepCostPerByte : Nat
deriving DecidableEq

/-- Modelled from the spec: the reference configuration (`KVGasConfig()` is
not among the provided sources); the spec fixes the charging formulas but
not the numbers, so the values are chosen to reproduce the totals pinned
by the repository's store tests (193 gas for the basic round trip). -/
def KVGasConfig : GasConfig :=
  { ReadCostFlat := 10
    ReadCostPerByte := 1
    WriteCostFlat := 20
    WriteCostPerByte := 5
    DeleteCost := 10
    HasCost := 10
    IterCreateCost := 10
    IterStepCostFlat := 15
    IterStepCostPerByte := 1 }

/-- Byte-wise lexicographic strict order on keys: the ascending iteration
order of the underlying ordered store. -/
def bytesLt : Bytes → Bytes → Bool
  | _, [] => false
  | [], _ :: _ => true
  | a :: as, b :: bs =>
    if a < b then true
    else if a = b then bytesLt as bs
    else false

/-- The underlying in-memory ordered store: an association list kept in
ascending key order. -/
abbrev MemStore := List (Bytes × Bytes)

/-- Lookup in the underlying store; `none` for a missing key (Go `nil`). -/
def memGet : MemStore → Bytes → Option Bytes
  | [], _ => none
  | (k', v') :: rest, k => if k = k' then some v' else memGet rest k

/-- Ordered insert/overwrite in the underlying store. -/
def memSet : MemStore → Bytes → Bytes → MemStore
  | [], k, v => [(k, v)]
  | (k', v') :: rest, k, v =>
    if k = k' then (k, v) :: rest
    else if bytesLt k k' then (k, v) :: (k', v') :: rest
    else (k', v') :: memSet rest k v

/-- Deletion in the underlying store. -/
def memDelete : MemStore → Bytes → MemStore
  | [], _ => []
  | (k', v') :: rest, k => if k = k' then rest else (k', v') :: memDelete rest k

/-- Modelled from the spec: the gas-accounted store decorating the ordered
store (`store/gas` is not among the provided sources); every operation
charges the meter before the underlying operation takes effect, and
out-of-gas is an unrecoverable abort (`none`), never a returned error. -/
structure Store where
  meter : GasMeter
  config : GasConfig
  parent : MemStore
deriving DecidableEq

/-- `NewStore(meter, config, parent)`. -/
def NewStore (meter : GasMeter) (config : GasConfig) (parent : MemStore) : Store :=
  { meter := meter, config := config, parent := parent }

/-- Length of a possibly-absent value (Go `len(nil) = 0`). -/
def valueLen : Option Bytes → Nat
  | none => 0
  | some v => v.length

/-- The charge of a `Get` returning value `v`:
`ReadCostFlat + ReadCostPerByte × len(value returned)`. -/
def getCharge (c : GasConfig) (v : Option Bytes) : Nat :=
  c.ReadCostFlat + c.ReadCostPerByte * valueLen v

/-- The charge of a `Set`:
`WriteCostFlat + WriteCostPerByte × (len(key) + len(value))`. -/
def setCharge (c : GasConfig) (key value : Bytes) : Nat :=
  c.WriteCostFlat + c.WriteCostPerByte * (key.length + value.length)

/-- `Get(key)`: charge for the value returned; a missing key is an empty
result, never a failure. -/
def Store.Get (s : Store) (key : Bytes) : Option (Store × Option Bytes) :=
  let v := memGet s.parent key
  match s.meter.ConsumeGas (getCharge s.config v) with
  | none => none
  | some m => some ({ s with meter := m }, v)

/-- `Set(key, value)`: charge, then delegate; the underlying mutation only
happens when the charge fits under the limit. -/
def Store.Set (s : Store) (key value : Bytes) : Option Store :=
  match s.meter.ConsumeGas (setCharge s.config key value) with
  | none => none
  | some m => some { s with meter := m, parent := memSet s.parent key value }

/-- `Delete(key)`: flat delete cost, then delegate. -/
def Store.Delete (s : Store) (key : Bytes) : Option Store :=
  match s.meter.ConsumeGas s.config.DeleteCost with
  | none => none
  | some m => some { s with meter := m, parent := memDelete s.parent key }

/-- `Has(key)`: flat existence-check cost. -/
def Store.Has (s : Store) (key : Bytes) : Option (Store × Bool) :=
  match s.meter.ConsumeGas s.config.HasCost with
  | none => none
  | some m => some ({ s with meter := m }, (memGet s.parent key).isSome)

/-- Modelled from the spec: a gas-accounted iterator over the whole store
(start = end = nil); `entries` are the not-yet-visited pairs in ascending
key order, the iterator being positioned on the first of them. -/
structure Iter where
  meter : GasMeter
  config : GasConfig
  entries : MemStore
deriving DecidableEq

/-- `Iterator(nil, nil)`: flat creation cost charged up front. -/
def Store.Iterator (s : Store) : Option Iter :=
  match s.meter.ConsumeGas s.config.IterCreateCost with
  | none => none
  | some m => some { meter := m, config := s.config, entries := s.parent }

/-- `Valid()`. -/
def Iter.Valid (it : Iter) : Bool := !it.entries.isEmpty

/-- `Key()`: reading an exhausted iterator fails loudly (`none`). -/
def Iter.Key (it : Iter) : Option Bytes :=
  match it.entries with
  | [] => none
  | (k, _) :: _ => some k

/-- `Value()`: reading an exhausted iterator fails loudly (`none`). -/
def Iter.Value (it : Iter) : Option Bytes :=
  match it.entries with
  | [] => none
  | (_, v) :: _ => some v

/-- `Next()`: advancing an exhausted iterator fails loudly; otherwise the
flat step cost plus the per-byte cost of the key/value at the current
position is charged, then the iterator advances. -/
def Iter.Next (it : Iter) : Option Iter :=
  match it.entries with
  | [] => none
  | (k, v) :: rest =>
    match it.meter.ConsumeGas
        (it.config.IterStepCostFlat + it.config.IterStepCostPerByte * (k.length + v.length)) with
    | none => none
    | some m => some { it with meter := m, entries := rest }

/-- Bytes of a string, as in the tests' `bz`. -/
def strBytes (s : String) : Bytes := s.toList.map Char.toNat

/-- Zero-pad a number to eight digits (the tests' `%0.8d`). -/
def pad8 (i : Nat) : String :=
  let s := toString i
  String.mk (List.replicate (8 - s.length) '0') ++ s

/-- The tests' `keyFmt(i)`. -/
def keyFmt (i : Nat) : Bytes := strBytes ("key" ++ pad8 i)

/-- The tests' `valFmt(i)`. -/
def valFmt (i : Nat) : Bytes := strBytes ("value" ++ pad8 i)

/-- The operation sequence of the basic store test: on a fresh store with a
1000-unit meter and the reference configuration, Get(miss), Set, Get(hit),
Delete, Get(miss); returns the final consumed total together with the
three Get results when every charge fits. -/
def basicRoundTrip : Option (Nat × Option Bytes × Option Bytes × Option Bytes) := do
  let s0 := NewStore (NewGasMeter 1000) KVGasConfig []
  let (s1, v1) ← s0.Get (keyFmt 1)
  let s2 ← s1.Set (keyFmt 1) (valFmt 1)
  let (s3, v2) ← s2.Get (keyFmt 1)
  let s4 ← s3.Delete (keyFmt 1)
  let (s5, v3) ← s4.Get (keyFmt 1)
  pure (s5.meter.GasConsumed, v1, v2, v3)

/-- The store of the iterator test: fresh store with a 1000-unit meter,
two Get misses, then the two key/value pairs inserted. -/
def iterStore : Option Store := do
  let s0 := NewStore (NewGasMeter 1000) KVGasConfig []
  let (s1, _) ← s0.Get (keyFmt 1)
  let (s2, _) ← s1.Get (keyFmt 2)
  let s3 ← s2.Set (keyFmt 1) (valFmt 1)
  s3.Set (keyFmt 2) (valFmt 2)

/-- The iterator opened in the iterator test. -/
def iterOpened : Option Iter := do
  let s ← iterStore
  s.Iterator

/-- Advance a possibly-aborted iterator. -/
def nextO (o : Option Iter) : Option Iter := o.bind Iter.Next

/-- Key of a possibly-aborted iterator. -/
def keyO (o : Option Iter) : Option Bytes := o.bind Iter.Key

/-- Value of a possibly-aborted iterator. -/
def valueO (o : Option Iter) : Option Bytes := o.bind Iter.Value

/-- Validity of a possibly-aborted iterator. -/
def validO (o : Option Iter) : Option Bool := o.map Iter.Valid

/-- A fresh gas-accounted store whose meter is limited to 0 units. -/
def zeroGasStore : Store := NewStore (NewGasMeter 0) KVGasConfig []

/-- C8: gas charging is a deterministic function of the configuration,
operation kind and key/value lengths; under the reference configuration,
starting from a fresh 1000-unit meter, the sequence Get(miss), Set,
Get(hit), Delete, Get(miss) on the test key/value consumes exactly 193 gas
units, the misses returning empty and the hit returning the value. -/
theorem C8_basic_roundtrip_consumes_193 :
    basicRoundTrip = some (193, none, some (valFmt 1), none) := by
  decide

/-- C9: whenever the meter's remaining budget is strictly below an
operation's charge, that operation aborts unrecoverably (`none`, the
out-of-gas panic) rather than returning a value; this holds for Set, Get,
Delete, Has and Iterator creation, so in particular for the very first Set
on a store over a 0-limit meter. -/
theorem C9_insufficient_gas_aborts (s : Store) (key value : Bytes) :
    (s.meter.limit < s.meter.consumed + setCharge s.config key value →
      s.Set key value = none) ∧
    (s.meter.limit < s.meter.consumed + getCharge s.config (memGet s.parent key) →
      s.Get key = none) ∧
    (s.meter.limit < s.meter.consumed + s.config.DeleteCost →
      s.Delete key = none) ∧
    (s.meter.limit < s.meter.consumed + s.config.HasCost →
      s.Has key = none) ∧
    (s.meter.limit < s.meter.consumed + s.config.IterCreateCost →
      s.Iterator = none) := by
  refine ⟨fun h1 => ?_, fun h2 => ?_, fun h3 => ?_, fun h4 => ?_, fun h5 => ?_⟩ <;>
    simp [Store.Set, Store.Get, Store.Delete, Store.Has, Store.Iterator,
      GasMeter.ConsumeGas, *]

/-- Witness for C9: a store over a meter limited to 0 units aborts on the
very first Set of the test key/value. -/
theorem C9_insufficient_gas_aborts_witness :
    (zeroGasStore.meter.limit <
      zeroGasStore.meter.consumed
        + setCharge zeroGasStore.config (keyFmt 1) (valFmt 1)) ∧
    zeroGasStore.Set (keyFmt 1) (valFmt 1) = none :=
  ⟨by decide,
   (C9_insufficient_gas_aborts zeroGasStore (keyFmt 1) (valFmt 1)).1 (by decide)⟩

/-- C10: the iterator opened over exactly the two inserted key/value pairs
yields them in ascending key order; after advancing past the last element
`Valid()` is false, and a further advance as well as any Key()/Value()
access on the exhausted iterator fails loudly (`none`), never returning a
value. -/
theorem C10_iterator_two_pairs_order_and_exhaustion :
    bytesLt (keyFmt 1) (keyFmt 2) = true ∧
    keyO iterOpened = some (keyFmt 1) ∧
    valueO iterOpened = some (valFmt 1) ∧
    validO iterOpened = some true ∧
    keyO (nextO iterOpened) = some (keyFmt 2) ∧
    valueO (nextO iterOpened) = some (valFmt 2) ∧
    validO (nextO iterOpened) = some true ∧
    validO (nextO (nextO iterOpened)) = some false ∧
    nextO (nextO (nextO iterOpened)) = none ∧
    keyO (nextO (nextO iterOpened)) = none ∧
    valueO (nextO (nextO iterOpened)) = none := by
  decide

end Gas

namespace IBC

theorem conns_setIngressSequence (st : State) (ty : DatagramType) (chain : Chain) (n : Nat) :
    (setIngressSequence st ty chain n).conns = st.conns := rfl

theorem hstate_setIngressSequence (st : State) (ty : DatagramType) (chain : Chain) (n : Nat) :
    (setIngressSequence st ty chain n).hstate = st.hstate := rfl

theorem conns_pushEgressDatagram (st : State) (ty : DatagramType) (chain : Chain) (d : Datagram) :
    (pushEgressDatagram st ty chain d).conns = st.conns := rfl

theorem hstate_pushEgressDatagram (st : State) (ty : DatagramType) (chain : Chain) (d : Datagram) :
    (pushEgressDatagram st ty chain d).hstate = st.hstate := rfl

theorem ingressSequence_setIngressSequence_self (st : State) (ty : DatagramType)
    (chain : Chain) (n : Nat) :
    ((setIngressSequence st ty chain n).channels ty chain).ingressSequence = n := by
  simp [setIngressSequence]

theorem egressQueue_setIngressSequence (st : State) (ty : DatagramType) (chain : Chain)
    (n : Nat) (ty0 : DatagramType) (c0 : Chain) :
    ((setIngressSequence st ty chain n).channels ty0 c0).egressQueue
      = (st.channels ty0 c0).egressQueue := by
  simp only [setIngressSequence]
  split <;> rfl

theorem ingressSequence_pushEgressDatagram (st : State) (ty : DatagramType) (chain : Chain)
    (d : Datagram) (ty0 : DatagramType) (c0 : Chain) :
    ((pushEgressDatagram st ty chain d).channels ty0 c0).ingressSequence
      = (st.channels ty0 c0).ingressSequence := by
  simp only [pushEgressDatagram]
  split <;> rfl

theorem egressQueue_pushEgressDatagram_self (st : State) (ty : DatagramType) (chain : Chain)
    (d : Datagram) :
    ((pushEgressDatagram st ty chain d).channels ty chain).egressQueue
      = (st.channels ty chain).egressQueue ++ [d] := by
  simp [pushEgressDatagram]

theorem channels_pushEgressDatagram_ne (st : State) (ty : DatagramType) (chain : Chain)
    (d : Datagram) (ty0 : DatagramType) (c0 : Chain) (hne : ¬(ty0 = ty ∧ c0 = chain)) :
    (pushEgressDatagram st ty chain d).channels ty0 c0 = st.channels ty0 c0 := by
  simp [pushEgressDatagram, hne]

theorem receivePacket_ret_ingressSequence (h : ReceiveHandler) (ctx : Context) (st : State)
    (ty : DatagramType) (chain : Chain) (data : Datagram) (st' : State) (r : Result)
    (heq : receivePacket h ctx st ty chain data = .ret (st', r))
    (ty0 : DatagramType) (c0 : Chain) :
    (st'.channels ty0 c0).ingressSequence = (st.channels ty0 c0).ingressSequence := by
  rcases hout : h ctx st.hstate data.payload with ⟨hs', rcpt, res⟩
  rcases rcpt with _ | rp <;> rcases hres : res.IsOK <;>
      simp [receivePacket, hout, hres] at heq <;>
    rcases heq with ⟨h1, h2⟩
  · subst h1; rfl
  · subst h1; rfl
  · subst h1; exact ingressSequence_pushEgressDatagram ..
  · subst h1; exact ingressSequence_pushEgressDatagram ..

theorem receiveReceipt_ret_channels (h : ReceiveHandler) (ctx : Context) (st : State)
    (ty : DatagramType) (chain : Chain) (data : Datagram) (st' : State) (r : Result)
    (heq : receiveReceipt h ctx st ty chain data = .ret (st', r)) :
    st'.channels = st.channels ∧ st'.conns = st.conns ∧ r.IsOK = true := by
  rcases hout : h ctx st.hstate data.payload with ⟨hs', rcpt, res⟩
  rcases rcpt with _ | rp <;> rcases hres : res.IsOK <;>
    simp [receiveReceipt, hout, hres] at heq
  rcases heq with ⟨h1, h2⟩
  subst h1; subst h2
  exact ⟨rfl, rfl, hres⟩

/-- C3: if the send handler fails, `Send` returns that result and mutates
nothing; if it succeeds, `Send` appends exactly one datagram — header
{SrcChain: current chain, DestChain: msg.DestChain}, payload: the
message's payload — to the egress queue of the channel (payload type,
destination chain), leaves every other channel untouched, and never
touches any ingress sequence counter, connection flag or module state. -/
theorem C3_send_append_on_success_only (k : Keeper) (h : SendHandler) (ctx : Context)
    (st : State) (msg : MsgSend) :
    ((h msg.payload).IsOK = false → k.Send h ctx st msg = (st, h msg.payload)) ∧
    ((h msg.payload).IsOK = true →
      ∃ st', k.Send h ctx st msg = (st', h msg.payload) ∧
        (st'.channels msg.payload.DatagramType msg.DestChain).egressQueue
          = (st.channels msg.payload.DatagramType msg.DestChain).egressQueue
            ++ [{ header := { SrcChain := ctx.ChainID, DestChain := msg.DestChain }
                  payload := msg.payload }] ∧
        (∀ ty0 c0, ¬(ty0 = msg.payload.DatagramType ∧ c0 = msg.DestChain) →
          st'.channels ty0 c0 = st.channels ty0 c0) ∧
        (∀ ty0 c0, (st'.channels ty0 c0).ingressSequence
          = (st.channels ty0 c0).ingressSequence) ∧
        st'.conns = st.conns ∧ st'.hstate = st.hstate) := by
  constructor
  · intro hres
    simp [Keeper.Send, hres]
  · intro hres
    refine ⟨_, by simp [Keeper.Send, hres], egressQueue_pushEgressDatagram_self .., ?_, ?_, rfl, rfl⟩
    · intro ty0 c0 hne
      exact channels_pushEgressDatagram_ne st _ _ _ ty0 c0 hne
    · intro ty0 c0
      exact ingressSequence_pushEgressDatagram ..

/-- Fixture: a state with all channels empty at sequence 0, every
connection established, and module state 0. -/
def sampleState : State :=
  { channels := fun _ _ => { ingressSequence := 0, egressQueue := [] }
    conns := fun _ => true
    hstate := 0 }

/-- Fixture: the local chain's context. -/
def sampleCtx : Context := { ChainID := "chainA" }

/-- Fixture: a keeper with codespace 0. -/
def sampleKeeper : Keeper := { codespace := 0 }

/-- Fixture: a packet payload. -/
def packetPayload : Payload := { ty := .PacketType, val := 5 }

/-- Fixture: a send handler that always succeeds. -/
def okSendHandler : SendHandler := fun _ => .ok

/-- Fixture: a send message toward chainB. -/
def sampleSendMsg : MsgSend := { payload := packetPayload, DestChain := "chainB" }

/-- Witness for C3: the successful branch at a concrete handler, state and
message. -/
theorem C3_send_append_on_success_only_witness :
    (okSendHandler sampleSendMsg.payload).IsOK = true ∧
    (∃ st', sampleKeeper.Send okSendHandler sampleCtx sampleState sampleSendMsg
        = (st', okSendHandler sampleSendMsg.payload) ∧
      (st'.channels sampleSendMsg.payload.DatagramType sampleSendMsg.DestChain).egressQueue
        = (sampleState.channels sampleSendMsg.payload.DatagramType
            sampleSendMsg.DestChain).egressQueue
          ++ [{ header := { SrcChain := sampleCtx.ChainID
                            DestChain := sampleSendMsg.DestChain }
                payload := sampleSendMsg.payload }] ∧
      (∀ ty0 c0, ¬(ty0 = sampleSendMsg.payload.DatagramType ∧ c0 = sampleSendMsg.DestChain) →
        st'.channels ty0 c0 = sampleState.channels ty0 c0) ∧
      (∀ ty0 c0, (st'.channels ty0 c0).ingressSequence
        = (sampleState.channels ty0 c0).ingressSequence) ∧
      st'.conns = sampleState.conns ∧ st'.hstate = sampleState.hstate) :=
  ⟨rfl,
   (C3_send_append_on_success_only sampleKeeper okSendHandler sampleCtx sampleState
      sampleSendMsg).2 rfl⟩

/-- C4: `Receive` checks its preconditions in the fixed order connection,
chain identity, sequence; each failed check short-circuits with its own
error result and the untouched state (no sequence counter or queue is
mutated), and the three error results are pairwise distinct. -/
theorem C4_receive_precondition_order (k : Keeper) (h : ReceiveHandler) (ctx : Context)
    (st : State) (msg : MsgReceive) :
    (connEstablished st msg.SrcChain = false →
      k.Receive h ctx st msg = .ret (st, ErrConnNotEstablished k.codespace)) ∧
    (connEstablished st msg.SrcChain = true →
      ctx.ChainID ≠ msg.datagram.header.DestChain →
      k.Receive h ctx st msg = .ret (st, ErrChainMismatch k.codespace)) ∧
    (connEstablished st msg.SrcChain = true →
      ctx.ChainID = msg.datagram.header.DestChain →
      msg.proof.Sequence
          ≠ getIngressSequence st msg.datagram.payload.DatagramType msg.SrcChain →
      k.Receive h ctx st msg = .ret (st, ErrInvalidSequence k.codespace)) ∧
    ErrConnNotEstablished k.codespace ≠ ErrChainMismatch k.codespace ∧
    ErrConnNotEstablished k.codespace ≠ ErrInvalidSequence k.codespace ∧
    ErrChainMismatch k.codespace ≠ ErrInvalidSequence k.codespace := by
  refine ⟨fun h1 => ?_, fun h1 h2 => ?_, fun h1 h2 h3 => ?_,
    by simp [ErrConnNotEstablished, ErrChainMismatch],
    by simp [ErrConnNotEstablished, ErrInvalidSequence],
    by simp [ErrChainMismatch, ErrInvalidSequence]⟩
  · simp [Keeper.Receive, h1]
  · simp [Keeper.Receive, h1, h2]
  · have h3' : getIngressSequence st msg.datagram.payload.DatagramType msg.SrcChain
        ≠ msg.proof.Sequence := fun he => h3 he.symm
    simp [Keeper.Receive, h1, h2, h3']

/-- Fixture: a receive handler that always succeeds without receipt and
bumps the module state. -/
def okReceiveHandler : ReceiveHandler := fun _ hs _ => (hs + 1, none, .ok)

/-- Fixture: a packet datagram inbound from chainB toward chainA. -/
def samplePacketMsg : MsgReceive :=
  { datagram := { header := { SrcChain := "chainB", DestChain := "chainA" }
                  payload := packetPayload }
    SrcChain := "chainB"
    proof := { Sequence := 0 } }

/-- Fixture: the packet message with a wrong proof sequence. -/
def badSeqMsg : MsgReceive :=
  { datagram := { header := { SrcChain := "chainB", DestChain := "chainA" }
                  payload := packetPayload }
    SrcChain := "chainB"
    proof := { Sequence := 7 } }

/-- Witness for C4: the invalid-sequence branch at a concrete message whose
proof sequence differs from the channel's ingress sequence. -/
theorem C4_receive_precondition_order_witness :
    (connEstablished sampleState badSeqMsg.SrcChain = true ∧
     sampleCtx.ChainID = badSeqMsg.datagram.header.DestChain ∧
     badSeqMsg.proof.Sequence
       ≠ getIngressSequence sampleState badSeqMsg.datagram.payload.DatagramType
           badSeqMsg.SrcChain) ∧
    sampleKeeper.Receive okReceiveHandler sampleCtx sampleState badSeqMsg
      = .ret (sampleState, ErrInvalidSequence sampleKeeper.codespace) :=
  ⟨⟨rfl, rfl, by decide⟩,
   (C4_receive_precondition_order sampleKeeper okReceiveHandler sampleCtx sampleState
      badSeqMsg).2.2.1 rfl rfl (by decide)⟩

/-- C5: in `receiveReceipt`, a handler result signalling failure causes the
fatal abort for a failing receipt handler; a succeeding handler returning
a receipt payload causes the fatal re-emission abort; and on every
normally returning path the result is OK (never a returned error) and no
egress queue is written. -/
theorem C5_receiveReceipt_fatal_contract (h : ReceiveHandler) (ctx : Context) (st : State)
    (ty : DatagramType) (chain : Chain) (data : Datagram)
    (hs' : HState) (rcpt : Option Payload) (res : Result)
    (hrun : h ctx st.hstate data.payload = (hs', rcpt, res)) :
    (res.IsOK = false →
      receiveReceipt h ctx st ty chain data = .fatal receiptFailMsg) ∧
    (∀ rp, rcpt = some rp → res.IsOK = true →
      receiveReceipt h ctx st ty chain data = .fatal receiptReemitMsg) ∧
    (∀ st' r, receiveReceipt h ctx st ty chain data = .ret (st', r) →
      r.IsOK = true ∧
      ∀ ty0 c0, (st'.channels ty0 c0).egressQueue = (st.channels ty0 c0).egressQueue) := by
  refine ⟨fun hres => ?_, fun rp hrp hres => ?_, fun st' r heq => ?_⟩
  · simp [receiveReceipt, hrun, hres]
  · subst hrp
    simp [receiveReceipt, hrun, hres]
  · obtain ⟨hch, -, hok⟩ := receiveReceipt_ret_channels h ctx st ty chain data st' r heq
    exact ⟨hok, fun ty0 c0 => by rw [hch]⟩

/-- Fixture: a receipt payload. -/
def receiptPayload : Payload := { ty := .ReceiptType, val := 9 }

/-- Fixture: a receive handler that fails. -/
def failReceiveHandler : ReceiveHandler := fun _ hs _ => (hs, none, .modErr 3)

/-- Fixture: a receipt datagram inbound from chainB toward chainA. -/
def sampleReceiptDatagram : Datagram :=
  { header := { SrcChain := "chainB", DestChain := "chainA" }
    payload := receiptPayload }

/-- Witness for C5: a failing receipt handler makes `receiveReceipt` abort
fatally at a concrete state and datagram. -/
theorem C5_receiveReceipt_fatal_contract_witness :
    (failReceiveHandler sampleCtx sampleState.hstate sampleReceiptDatagram.payload
        = (sampleState.hstate, none, Result.modErr 3) ∧
     (Result.modErr 3).IsOK = false) ∧
    receiveReceipt failReceiveHandler sampleCtx sampleState .ReceiptType
        sampleReceiptDatagram.header.SrcChain sampleReceiptDatagram
      = .fatal receiptFailMsg :=
  ⟨⟨rfl, rfl⟩,
   (C5_receiveReceipt_fatal_contract failReceiveHandler sampleCtx sampleState .ReceiptType
      sampleReceiptDatagram.header.SrcChain sampleReceiptDatagram
      sampleState.hstate none (Result.modErr 3) rfl).1 rfl⟩

/-- C1: a `Receive` that passes the connection, chain-identity and
sequence checks advances the channel's ingress sequence by exactly one:
every normally returned final state carries the incremented sequence,
regardless of which dispatch branch ran and of whether the invoked
handler succeeded or failed. -/
theorem C1_receive_advances_ingress_sequence (k : Keeper) (h : ReceiveHandler)
    (ctx : Context) (st : State) (msg : MsgReceive)
    (hconn : connEstablished st msg.SrcChain = true)
    (hchain : ctx.ChainID = msg.datagram.header.DestChain)
    (hseq : msg.proof.Sequence
      = getIngressSequence st msg.datagram.payload.DatagramType msg.SrcChain) :
    ∀ st' r, k.Receive h ctx st msg = .ret (st', r) →
      getIngressSequence st' msg.datagram.payload.DatagramType msg.SrcChain
        = getIngressSequence st msg.datagram.payload.DatagramType msg.SrcChain + 1 := by
  intro st' r heq
  simp only [Payload.DatagramType, getIngressSequence] at hseq ⊢
  simp only [Keeper.Receive, Payload.DatagramType, getIngressSequence, hconn, hchain, hseq,
    Bool.not_true, Bool.false_eq_true, if_false, ne_eq, not_true_eq_false, not_false_eq_true,
    ite_not, if_true] at heq
  rcases hty : msg.datagram.payload.ty with _ | _ | n <;>
    simp only [hty] at heq ⊢
  · have h1 := receivePacket_ret_ingressSequence _ _ _ _ _ _ _ _ heq
      DatagramType.PacketType msg.SrcChain
    rw [h1, ingressSequence_setIngressSequence_self]
  · obtain ⟨hch, -, -⟩ := receiveReceipt_ret_channels _ _ _ _ _ _ _ _ heq
    rw [hch, ingressSequence_setIngressSequence_self]
  · simp only [Outcome.ret.injEq, Prod.mk.injEq] at heq
    obtain ⟨h1, -⟩ := heq
    rw [← h1, ingressSequence_setIngressSequence_self]

/-- Witness for C1: the concrete all-zero state, an always-succeeding
handler and a packet message with matching sequence. -/
theorem C1_receive_advances_ingress_sequence_witness :
    (connEstablished sampleState samplePacketMsg.SrcChain = true ∧
     sampleCtx.ChainID = samplePacketMsg.datagram.header.DestChain ∧
     samplePacketMsg.proof.Sequence
       = getIngressSequence sampleState samplePacketMsg.datagram.payload.DatagramType
           samplePacketMsg.SrcChain) ∧
    (∀ st' r,
      sampleKeeper.Receive okReceiveHandler sampleCtx sampleState samplePacketMsg
          = .ret (st', r) →
      getIngressSequence st' samplePacketMsg.datagram.payload.DatagramType
          samplePacketMsg.SrcChain
        = getIngressSequence sampleState samplePacketMsg.datagram.payload.DatagramType
            samplePacketMsg.SrcChain + 1) :=
  ⟨⟨rfl, rfl, rfl⟩,
   C1_receive_advances_ingress_sequence sampleKeeper okReceiveHandler sampleCtx sampleState
     samplePacketMsg rfl rfl rfl⟩

/-- C2: in `receivePacket`, a returned receipt is pushed — header
inverted, receipt as payload — onto the outer egress queue whether the
handler succeeded or failed; on handler failure the handler's result is
returned and its module-state writes are discarded (the receipt push
survives); on success the writes are committed. -/
theorem C2_receivePacket_outer_push_and_rollback (h : ReceiveHandler) (ctx : Context)
    (st : State) (ty : DatagramType) (chain : Chain) (data : Datagram)
    (hs' : HState) (rcpt : Option Payload) (res : Result)
    (hrun : h ctx st.hstate data.payload = (hs', rcpt, res)) :
    ∃ st' r, receivePacket h ctx st ty chain data = .ret (st', r) ∧
      (∀ rp, rcpt = some rp →
        (st'.channels ty chain).egressQueue
          = (st.channels ty chain).egressQueue
            ++ [{ header := data.header.InverseDirection, payload := rp }]) ∧
      (rcpt = none →
        ∀ ty0 c0, (st'.channels ty0 c0).egressQueue = (st.channels ty0 c0).egressQueue) ∧
      (res.IsOK = false → r = WrapResult res ∧ st'.hstate = st.hstate) ∧
      (res.IsOK = true → r = res ∧ st'.hstate = hs') := by
  rcases rcpt with _ | rp <;> rcases hres : res.IsOK
  · refine ⟨st, WrapResult res, by simp [receivePacket, hrun, hres], ?_, ?_, ?_, ?_⟩
    · intro rp hrp; simp at hrp
    · intro _ ty0 c0; rfl
    · intro _; exact ⟨rfl, rfl⟩
    · intro hok; simp [hres] at hok
  · refine ⟨{ st with hstate := hs' }, res, by simp [receivePacket, hrun, hres], ?_, ?_, ?_, ?_⟩
    · intro rp hrp; simp at hrp
    · intro _ ty0 c0; rfl
    · intro hko; simp [hres] at hko
    · intro _; exact ⟨rfl, rfl⟩
  · refine ⟨pushEgressDatagram st ty chain
        { header := data.header.InverseDirection, payload := rp },
      WrapResult res, by simp [receivePacket, hrun, hres], ?_, ?_, ?_, ?_⟩
    · intro rp' hrp
      injection hrp with h1
      subst h1
      exact egressQueue_pushEgressDatagram_self ..
    · intro hrp; simp at hrp
    · intro _; exact ⟨rfl, rfl⟩
    · intro hok; simp [hres] at hok
  · refine ⟨{ pushEgressDatagram st ty chain
        { header := data.header.InverseDirection, payload := rp } with hstate := hs' },
      res, by simp [receivePacket, hrun, hres], ?_, ?_, ?_, ?_⟩
    · intro rp' hrp
      injection hrp with h1
      subst h1
      exact egressQueue_pushEgressDatagram_self ..
    · intro hrp; simp at hrp
    · intro hko; simp [hres] at hko
    · intro _; exact ⟨rfl, rfl⟩

/-- Fixture: a receive handler that fails after writing module state and
returns a receipt payload. -/
def failWithReceiptHandler : ReceiveHandler :=
  fun _ hs _ => (hs + 4, some receiptPayload, .modErr 3)

/-- Witness for C2: a concrete failing handler that returns a receipt,
applied to the sample packet datagram. -/
theorem C2_receivePacket_outer_push_and_rollback_witness :
    failWithReceiptHandler sampleCtx sampleState.hstate samplePacketMsg.datagram.payload
        = (sampleState.hstate + 4, some receiptPayload, Result.modErr 3) ∧
    (∃ st' r, receivePacket failWithReceiptHandler sampleCtx sampleState .PacketType
          samplePacketMsg.SrcChain samplePacketMsg.datagram = .ret (st', r) ∧
      (∀ rp, (some receiptPayload : Option Payload) = some rp →
        (st'.channels .PacketType samplePacketMsg.SrcChain).egressQueue
          = (sampleState.channels .PacketType samplePacketMsg.SrcChain).egressQueue
            ++ [{ header := samplePacketMsg.datagram.header.InverseDirection
                  payload := rp }]) ∧
      ((some receiptPayload : Option Payload) = none →
        ∀ ty0 c0, (st'.channels ty0 c0).egressQueue
          = (sampleState.channels ty0 c0).egressQueue) ∧
      ((Result.modErr 3).IsOK = false →
        r = WrapResult (Result.modErr 3) ∧ st'.hstate = sampleState.hstate) ∧
      ((Result.modErr 3).IsOK = true →
        r = Result.modErr 3 ∧ st'.hstate = sampleState.hstate + 4)) :=
  ⟨rfl,
   C2_receivePacket_outer_push_and_rollback failWithReceiptHandler sampleCtx sampleState
     .PacketType samplePacketMsg.SrcChain samplePacketMsg.datagram
     (sampleState.hstate + 4) (some receiptPayload) (Result.modErr 3) rfl⟩

/-- C6: a `Receive` that passes all three checks but whose payload type is
neither Packet nor Receipt returns the UnknownDatagramType failure as an
ordinary result, yet the final state carries the ingress sequence already
incremented by one — the increment is not rolled back (while no queue is
touched). -/
theorem C6_unknown_type_consumes_sequence (k : Keeper) (h : ReceiveHandler)
    (ctx : Context) (st : State) (msg : MsgReceive)
    (hconn : connEstablished st msg.SrcChain = true)
    (hchain : ctx.ChainID = msg.datagram.header.DestChain)
    (hseq : msg.proof.Sequence
      = getIngressSequence st msg.datagram.payload.DatagramType msg.SrcChain)
    (hty1 : msg.datagram.payload.DatagramType ≠ .PacketType)
    (hty2 : msg.datagram.payload.DatagramType ≠ .ReceiptType) :
    ∃ st', k.Receive h ctx st msg = .ret (st', ErrUnknownDatagramType k.codespace) ∧
      getIngressSequence st' msg.datagram.payload.DatagramType msg.SrcChain
        = getIngressSequence st msg.datagram.payload.DatagramType msg.SrcChain + 1 ∧
      (∀ ty0 c0, (st'.channels ty0 c0).egressQueue = (st.channels ty0 c0).egressQueue) := by
  rcases hty : msg.datagram.payload.ty with _ | _ | n
  · exact absurd hty hty1
  · exact absurd hty hty2
  · simp only [Payload.DatagramType, getIngressSequence, hty] at hseq ⊢
    refine ⟨setIngressSequence st (DatagramType.OtherType n) msg.SrcChain
        ((st.channels (DatagramType.OtherType n) msg.SrcChain).ingressSequence + 1),
      ?_, ?_, ?_⟩
    · simp [Keeper.Receive, Payload.DatagramType, getIngressSequence, hty, hconn, hchain,
        hseq]
    · exact ingressSequence_setIngressSequence_self ..
    · intro ty0 c0
      exact egressQueue_setIngressSequence ..

/-- Fixture: a payload of an unknown datagram type. -/
def unknownPayload : Payload := { ty := .OtherType 2, val := 1 }

/-- Fixture: a message carrying the unknown-type payload from chainB. -/
def unknownTypeMsg : MsgReceive :=
  { datagram := { header := { SrcChain := "chainB", DestChain := "chainA" }
                  payload := unknownPayload }
    SrcChain := "chainB"
    proof := { Sequence := 0 } }

/-- Witness for C6: the unknown-type message at the concrete state passes
the three checks and consumes a sequence number. -/
theorem C6_unknown_type_consumes_sequence_witness :
    (connEstablished sampleState unknownTypeMsg.SrcChain = true ∧
     sampleCtx.ChainID = unknownTypeMsg.datagram.header.DestChain ∧
     unknownTypeMsg.proof.Sequence
       = getIngressSequence sampleState unknownTypeMsg.datagram.payload.DatagramType
           unknownTypeMsg.SrcChain ∧
     unknownTypeMsg.datagram.payload.DatagramType ≠ .PacketType ∧
     unknownTypeMsg.datagram.payload.DatagramType ≠ .ReceiptType) ∧
    (∃ st', sampleKeeper.Receive okReceiveHandler sampleCtx sampleState unknownTypeMsg
        = .ret (st', ErrUnknownDatagramType sampleKeeper.codespace) ∧
      getIngressSequence st' unknownTypeMsg.datagram.payload.DatagramType
          unknownTypeMsg.SrcChain
        = getIngressSequence sampleState unknownTypeMsg.datagram.payload.DatagramType
            unknownTypeMsg.SrcChain + 1 ∧
      (∀ ty0 c0, (st'.channels ty0 c0).egressQueue
        = (sampleState.channels ty0 c0).egressQueue)) :=
  ⟨⟨rfl, rfl, rfl, by decide, by decide⟩,
   C6_unknown_type_consumes_sequence sampleKeeper okReceiveHandler sampleCtx sampleState
     unknownTypeMsg rfl rfl rfl (by decide) (by decide)⟩

/-- Two states that agree on the module state, connection flags, every
ingress sequence counter and the payloads of every egress queue — i.e.
they differ at most in the headers of queued egress datagrams. -/
def StateAgrees (s1 s2 : State) : Prop :=
  s1.hstate = s2.hstate ∧ s1.conns = s2.conns ∧
  ∀ ty c, (s1.channels ty c).ingressSequence = (s2.channels ty c).ingressSequence ∧
    (s1.channels ty c).egressQueue.map Datagram.payload
      = (s2.channels ty c).egressQueue.map Datagram.payload

theorem stateAgrees_self (s : State) : StateAgrees s s :=
  ⟨rfl, rfl, fun _ _ => ⟨rfl, rfl⟩⟩

/-- Two receive outcomes that are equal up to the headers of queued
egress datagrams: same fatality, same result, agreeing states. -/
def SameUpToEgressHeaders : Outcome (State × Result) → Outcome (State × Result) → Prop
  | .ret (s1, r1), .ret (s2, r2) => r1 = r2 ∧ StateAgrees s1 s2
  | .fatal m1, .fatal m2 => m1 = m2
  | _, _ => False

theorem sameUpToEgressHeaders_self (o : Outcome (State × Result)) :
    SameUpToEgressHeaders o o := by
  rcases o with ⟨s, r⟩ | m
  · exact ⟨rfl, stateAgrees_self s⟩
  · rfl

theorem stateAgrees_push_push (st : State) (ty : DatagramType) (chain : Chain)
    (h1 h2 : Header) (rp : Payload) :
    StateAgrees (pushEgressDatagram st ty chain { header := h1, payload := rp })
      (pushEgressDatagram st ty chain { header := h2, payload := rp }) := by
  refine ⟨rfl, rfl, fun ty0 c0 => ⟨?_, ?_⟩⟩
  · rw [ingressSequence_pushEgressDatagram, ingressSequence_pushEgressDatagram]
  · by_cases hk : ty0 = ty ∧ c0 = chain
    · obtain ⟨hk1, hk2⟩ := hk
      subst hk1; subst hk2
      simp [egressQueue_pushEgressDatagram_self]
    · rw [channels_pushEgressDatagram_ne _ _ _ _ _ _ hk,
        channels_pushEgressDatagram_ne _ _ _ _ _ _ hk]

theorem stateAgrees_hstate_update (s1 s2 : State) (x : HState) (hA : StateAgrees s1 s2) :
    StateAgrees { s1 with hstate := x } { s2 with hstate := x } :=
  ⟨rfl, hA.2.1, hA.2.2⟩

theorem receivePacket_payload_congr (h : ReceiveHandler) (ctx : Context) (st : State)
    (ty : DatagramType) (chain : Chain) (d1 d2 : Datagram)
    (hpay : d1.payload = d2.payload) :
    SameUpToEgressHeaders (receivePacket h ctx st ty chain d1)
      (receivePacket h ctx st ty chain d2) := by
  rcases hout : h ctx st.hstate d2.payload with ⟨hs', rcpt, res⟩
  have hout1 : h ctx st.hstate d1.payload = (hs', rcpt, res) := by rw [hpay, hout]
  rcases rcpt with _ | rp <;> rcases hres : res.IsOK <;>
    simp only [receivePacket, hout, hout1, hres, Bool.not_false, Bool.not_true,
      if_true, if_false]
  · exact sameUpToEgressHeaders_self _
  · exact sameUpToEgressHeaders_self _
  · exact ⟨rfl, stateAgrees_push_push ..⟩
  · exact ⟨rfl, stateAgrees_hstate_update _ _ _ (stateAgrees_push_push ..)⟩

theorem receiveReceipt_payload_congr (h : ReceiveHandler) (ctx : Context) (st : State)
    (ty : DatagramType) (chain : Chain) (d1 d2 : Datagram)
    (hpay : d1.payload = d2.payload) :
    receiveReceipt h ctx st ty chain d1 = receiveReceipt h ctx st ty chain d2 := by
  simp only [receiveReceipt, hpay]

/-- C7: `Receive` never consults `Datagram.Header.SrcChain`: two receive
messages that agree on everything except the inbound header's source
chain pass or fail the very same checks with the same result, advance the
same sequence counter, and their final states differ at most in the
header recorded on an emitted receipt. -/
theorem C7_receive_independent_of_header_srcChain (k : Keeper) (h : ReceiveHandler)
    (ctx : Context) (st : State) (d1 d2 : Datagram) (src : Chain) (prf : Proof)
    (hdest : d1.header.DestChain = d2.header.DestChain)
    (hpay : d1.payload = d2.payload) :
    SameUpToEgressHeaders
      (k.Receive h ctx st { datagram := d1, SrcChain := src, proof := prf })
      (k.Receive h ctx st { datagram := d2, SrcChain := src, proof := prf }) := by
  simp only [Keeper.Receive]
  rcases hconn : connEstablished st src with _ | _
  · simp only [hconn, Bool.not_false, if_true]
    exact sameUpToEgressHeaders_self _
  · simp only [hconn, Bool.not_true, Bool.false_eq_true, if_false]
    rw [hdest, hpay]
    by_cases hchain : ctx.ChainID = d2.header.DestChain
    · simp only [hchain, ne_eq, not_true_eq_false, if_false]
      by_cases hseq : getIngressSequence st d2.payload.DatagramType src = prf.Sequence
      · simp only [hseq, ne_eq, not_true_eq_false, if_false]
        rcases hty : d2.payload.DatagramType with _ | _ | n <;> simp only [hty]
        · exact receivePacket_payload_congr _ _ _ _ _ _ _ hpay
        · rw [receiveReceipt_payload_congr _ _ _ _ _ _ _ hpay]
          exact sameUpToEgressHeaders_self _
        · exact sameUpToEgressHeaders_self _
      · simp only [ne_eq, hseq, not_false_eq_true, if_true]
        exact sameUpToEgressHeaders_self _
    · simp only [ne_eq, hchain, not_false_eq_true, if_true]
      exact sameUpToEgressHeaders_self _

/-- Fixture: the sample packet datagram with a forged header source
chain. -/
def forgedHeaderDatagram : Datagram :=
  { header := { SrcChain := "chainX", DestChain := "chainA" }
    payload := packetPayload }

/-- Witness for C7: the sample packet datagram and its forged-header twin
produce outcomes equal up to egress headers. -/
theorem C7_receive_independent_of_header_srcChain_witness :
    (samplePacketMsg.datagram.header.DestChain = forgedHeaderDatagram.header.DestChain ∧
     samplePacketMsg.datagram.payload = forgedHeaderDatagram.payload) ∧
    SameUpToEgressHeaders
      (sampleKeeper.Receive okReceiveHandler sampleCtx sampleState
        { datagram := samplePacketMsg.datagram, SrcChain := "chainB"
          proof := { Sequence := 0 } })
      (sampleKeeper.Receive okReceiveHandler sampleCtx sampleState
        { datagram := forgedHeaderDatagram, SrcChain := "chainB"
          proof := { Sequence := 0 } }) :=
  ⟨⟨rfl, rfl⟩,
   C7_receive_independent_of_header_srcChain sampleKeeper okReceiveHandler sampleCtx
     sampleState samplePacketMsg.datagram forgedHeaderDatagram "chainB"
     { Sequence := 0 } rfl rfl⟩

end IBC
